import Mathlib

/-
Shallow embedding of the tkinter-breakout game (src/main.py).

Coordinates are rationals (Tk canvas coordinates are exact decimals here:
all positions in the program are integers or halves).  Canvas-object
mutation is embedded as state passing; a Python exception (TypeError or
KeyError) is embedded as a Boolean error flag returned next to the new
state, so that the state mutated before the raise is still visible.
Deleting a canvas item is embedded as an `alive` flag: every canvas query
(find_overlapping, find_withtag) sees only alive items, which is exactly
what deletion means to the rest of the program.  Text messages drawn at
(300, 200) are embedded as the inductive `Msg`; the HUD lives text is
embedded as the integer it displays.  The one-shot `after` scheduling is
embedded as the `Pending` action a tick leaves behind.
-/

namespace Breakout

/-- The ball entity: radius, the two direction signs, the nullable speed,
and the bounding box (x0, y0, x1, y1), y growing downward. -/
structure Ball where
  radius : ℚ
  dirX : Int
  dirY : Int
  speed : Option ℚ
  x0 : ℚ
  y0 : ℚ
  x1 : ℚ
  y1 : ℚ
  deriving DecidableEq, Repr

/-- Ball.__init__: radius 10, direction [1, -1], speed 10, oval from
(x - radius, y - radius) to (x + radius, y + radius). -/
def Ball.init (x y : ℚ) : Ball :=
  { radius := 10, dirX := 1, dirY := -1, speed := some 10,
    x0 := x - 10, y0 := y - 10, x1 := x + 10, y1 := y + 10 }

/-- GameObject.move inherited by Ball: canvas.move(item, x, y) translates
the bounding box. -/
def Ball.move (b : Ball) (dx dy : ℚ) : Ball :=
  { b with x0 := b.x0 + dx, y0 := b.y0 + dy, x1 := b.x1 + dx, y1 := b.y1 + dy }

/-- Ball.update: reflect dirX when the left edge is at most 0 or the right
edge is at least the canvas width, reflect dirY when the top edge is at
most 0, then move by direction * speed.  When speed is None the Python
code raises a TypeError at `direction[0] * speed`, after the direction
flips already happened: the error flag is true and the box is unmoved. -/
def Ball.update (w : ℚ) (b : Ball) : Ball × Bool :=
  let dx : Int := if b.x0 ≤ 0 ∨ b.x1 ≥ w then -b.dirX else b.dirX
  let dy : Int := if b.y0 ≤ 0 then -b.dirY else b.dirY
  let b1 : Ball := { b with dirX := dx, dirY := dy }
  match b.speed with
  | none => (b1, true)
  | some s => (b1.move ((dx : ℚ) * s) ((dy : ℚ) * s), false)

/-- The mutable state of a Brick: its hits counter, whether its canvas
item still exists (canvas.delete clears it), and its fill color. -/
structure BrickState where
  hits : Int
  alive : Bool
  color : String
  deriving DecidableEq, Repr

/-- Brick.COLORS maps 1 to #999999, 2 to #555555, 3 to #222222, as an
optional lookup (a missing key is a KeyError in Python). -/
def COLORS (h : Int) : Option String :=
  if h = 1 then some "#999999"
  else if h = 2 then some "#555555"
  else if h = 3 then some "#222222"
  else none

/-- Brick.hit: decrement the hits counter; if it reached 0 delete the
canvas item, otherwise repaint with COLORS[hits] — which raises a
KeyError (error flag true) when the decremented counter is not a key. -/
def Brick.hit (st : BrickState) : BrickState × Bool :=
  let h := st.hits - 1
  if h = 0 then ({ st with hits := h, alive := false }, false)
  else
    match COLORS h with
    | some c => ({ st with hits := h, color := c }, false)
    | none => ({ st with hits := h }, true)

/-- Brick.__init__: the color lookup COLORS[hits] runs before
create_rectangle, so a hits value outside the mapping raises a KeyError
and no canvas item is created; on success the brick is alive with the
looked-up color. -/
def Brick.make (hits : Int) : Option BrickState :=
  (COLORS hits).map (fun c => { hits := hits, alive := true, color := c })

/-- Runtime type tag of a collidable entity, with the Brick state
attached to bricks. -/
inductive EKind where
  | paddle : EKind
  | brick : BrickState → EKind
  deriving DecidableEq, Repr

/-- A collidable canvas entity as stored in Game.items: its canvas item
id, its bounding box, and its type tag. -/
structure Entity where
  id : Nat
  x0 : ℚ
  y0 : ℚ
  x1 : ℚ
  y1 : ℚ
  kind : EKind
  deriving DecidableEq, Repr

/-- Whether the entity still has a canvas item (the paddle is never
deleted; a brick once deleted is invisible to canvas queries). -/
def entityAlive (o : Entity) : Bool :=
  match o.kind with
  | .paddle => true
  | .brick st => st.alive

/-- One iteration of the hit loop body: `if isinstance(obj, Brick):
obj.hit()`. -/
def hitEntity (o : Entity) : Entity × Bool :=
  match o.kind with
  | .paddle => (o, false)
  | .brick st =>
    let r := Brick.hit st
    ({ o with kind := .brick r.1 }, r.2)

/-- The `for game_object in game_objects` hit loop of Ball.collide: each
Brick in the list is hit once, in order; a KeyError raised inside hit
aborts the loop, leaving the later entities untouched. -/
def hitAll : List Entity → List Entity × Bool
  | [] => ([], false)
  | o :: rest =>
    let r := hitEntity o
    if r.2 then (r.1 :: rest, true)
    else
      let rr := hitAll rest
      (r.1 :: rr.1, rr.2)

/-- Ball.collide: with two or more colliding objects flip dirY; with
exactly one, compare the ball center x against the object edges (set
dirX to 1 right of the right edge, to -1 left of the left edge,
otherwise flip dirY); with none, leave the direction alone.  Then run
the hit loop over the whole list. -/
def Ball.collide (b : Ball) (objs : List Entity) : Ball × List Entity × Bool :=
  let cx := (b.x0 + b.x1) * (1 / 2)
  let b1 :=
    if 1 < objs.length then { b with dirY := -b.dirY }
    else
      match objs with
      | [o] =>
        if cx > o.x1 then { b with dirX := 1 }
        else if cx < o.x0 then { b with dirX := -1 }
        else { b with dirY := -b.dirY }
      | _ => b
  let r := hitAll objs
  (b1, r.1, r.2)

/-- The paddle: bounding box plus the optional carried ball set by
set_ball and cleared at game start. -/
structure Paddle where
  x0 : ℚ
  y0 : ℚ
  x1 : ℚ
  y1 : ℚ
  ball : Option Ball
  deriving DecidableEq, Repr

/-- Paddle.__init__: width 80, height 10, rectangle centered at (x, y),
no carried ball yet. -/
def Paddle.init (x y : ℚ) : Paddle :=
  { x0 := x - 40, y0 := y - 5, x1 := x + 40, y1 := y + 5, ball := none }

/-- Paddle.move(offset): if both translated x edges stay inside
[0, canvas width], translate the paddle horizontally and, when a ball is
carried, translate it by the same offset; otherwise do nothing. -/
def Paddle.move (w : ℚ) (offset : ℚ) (p : Paddle) : Paddle :=
  if p.x0 + offset ≥ 0 ∧ p.x1 + offset ≤ w then
    { p with x0 := p.x0 + offset, x1 := p.x1 + offset,
             ball := p.ball.map (fun b => b.move offset 0) }
  else p

/-- Game.width = 610. -/
def gameWidth : ℚ := 610

/-- Game.height = 400. -/
def gameHeight : ℚ := 400

/-- The status text drawn at (300, 200). -/
inductive Msg where
  | won : Msg
  | gameOver : Msg
  | pressToStart : Msg
  deriving DecidableEq, Repr

/-- The one-shot callback a tick leaves scheduled: none (terminal), the
next game_loop tick after 50 ms, or setup_game after 1000 ms. -/
inductive Pending where
  | stop : Pending
  | tickAfter : Int → Pending
  | serveAfter : Int → Pending
  deriving DecidableEq, Repr

/-- The Game state touched by game_loop: lives, the lives value the HUD
text currently shows, the ball, the collidable items dict (paddle and
bricks), the status message, and the scheduled callback. -/
structure GameState where
  lives : Int
  hudLives : Int
  ball : Ball
  objs : List Entity
  message : Option Msg
  pending : Pending
  deriving DecidableEq, Repr

/-- canvas.find_overlapping on the ball box: closed-rectangle overlap
between the entity box and the ball box. -/
def overlapsBall (b : Ball) (o : Entity) : Bool :=
  decide (o.x0 ≤ b.x1) && decide (b.x0 ≤ o.x1) &&
  decide (o.y0 ≤ b.y1) && decide (b.y0 ≤ o.y1)

/-- The collideables list of Game.check_collisions: canvas items
overlapping the ball box (deleted items are never returned by the
canvas) that are keys of Game.items — text items never are, and every
entity in `objs` models a key of Game.items. -/
def collidingEntities (g : GameState) : List Entity :=
  g.objs.filter (fun o => entityAlive o && overlapsBall g.ball o)

/-- In-place mutation of the colliding objects written back into the
items dict: each item is replaced by its updated version when its canvas
id occurs in the updated list. -/
def writeBack (objs updated : List Entity) : List Entity :=
  objs.map (fun o => ((updated.find? (fun u => u.id == o.id)).getD o))

/-- Game.check_collisions: gather the colliding entities and run
Ball.collide on them; the error flag is a KeyError escaping a
Brick.hit. -/
def Game.check_collisions (g : GameState) : GameState × Bool :=
  let cs := collidingEntities g
  let r := Ball.collide g.ball cs
  ({ g with ball := r.1, objs := writeBack g.objs r.2.1 }, r.2.2)

/-- The brick count len(canvas.find_withtag(brick tag)): the number of
brick items still on the canvas. -/
def numBricks (g : GameState) : Nat :=
  (g.objs.filter (fun o =>
    match o.kind with
    | .brick st => st.alive
    | .paddle => false)).length

/-- Game.game_loop, one tick: check_collisions first (an exception there
aborts the tick); then the win check (no bricks left: freeze the ball,
draw the win text, schedule nothing); then the miss check (ball bottom
at or past the playfield height: freeze the ball, decrement lives, then
either draw Game Over and schedule nothing, or schedule setup_game after
1000 ms); otherwise move the ball and schedule the next tick after
50 ms. -/
def Game.game_loop (g : GameState) : GameState × Bool :=
  let r := Game.check_collisions g
  if r.2 then (r.1, true)
  else
    let g1 := r.1
    if numBricks g1 = 0 then
      ({ g1 with ball := { g1.ball with speed := none },
                 message := some Msg.won, pending := Pending.stop }, false)
    else if g1.ball.y1 ≥ gameHeight then
      let g2 := { g1 with ball := { g1.ball with speed := none },
                          lives := g1.lives - 1 }
      if g2.lives < 0 then
        ({ g2 with message := some Msg.gameOver, pending := Pending.stop }, false)
      else
        ({ g2 with pending := Pending.serveAfter 1000 }, false)
    else
      let u := Ball.update gameWidth g1.ball
      ({ g1 with ball := u.1, pending := Pending.tickAfter 50 }, u.2)

/-- Both direction components of a ball are signs. -/
def dirInv (b : Ball) : Prop :=
  (b.dirX = 1 ∨ b.dirX = -1) ∧ (b.dirY = 1 ∨ b.dirY = -1)

instance (b : Ball) : Decidable (dirInv b) := by
  unfold dirInv; infer_instance

/-- A brick tag carries a hits counter the color map accepts. -/
def validKind : EKind → Prop
  | .paddle => True
  | .brick st => st.hits = 1 ∨ st.hits = 2 ∨ st.hits = 3

instance (k : EKind) : Decidable (validKind k) := by
  cases k <;> unfold validKind <;> infer_instance

/-- A freshly served ball at (300, 310), as add_ball creates it. -/
def ballW : Ball := Ball.init 300 310

/-- The paddle entity at its starting place (center 305, y 326). -/
def paddleE : Entity :=
  { id := 1, x0 := 265, y0 := 321, x1 := 345, y1 := 331, kind := .paddle }

/-- A two-hit brick entity. -/
def brickW1 : Entity :=
  { id := 2, x0 := 280, y0 := 280, x1 := 355, y1 := 300,
    kind := .brick { hits := 2, alive := true, color := "#555555" } }

/-- A one-hit brick entity next to brickW1. -/
def brickW2 : Entity :=
  { id := 3, x0 := 355, y0 := 280, x1 := 430, y1 := 300,
    kind := .brick { hits := 1, alive := true, color := "#999999" } }

/-- A frozen ball (speed already set to None) touching the left wall. -/
def ballStuck : Ball :=
  { radius := 10, dirX := 1, dirY := -1, speed := none,
    x0 := 0, y0 := 300, x1 := 20, y1 := 320 }

/-- A paddle whose box left edge is at 5, carrying no ball. -/
def p5 : Paddle := { x0 := 5, y0 := 321, x1 := 85, y1 := 331, ball := none }

/-- A brick state on its last hit point. -/
def stW1 : BrickState := { hits := 1, alive := true, color := "#999999" }

/-- A brick state with the out-of-range counter 4. -/
def brickFour : BrickState := { hits := 4, alive := true, color := "#222222" }

/-- A brick state whose counter is already 0. -/
def stZero : BrickState := { hits := 0, alive := true, color := "#999999" }

/-- A ball at the bottom edge (its y1 equals the playfield height),
moving downward. -/
def ballBottom : Ball :=
  { radius := 10, dirX := 1, dirY := 1, speed := some 10,
    x0 := 300, y0 := 380, x1 := 320, y1 := 400 }

/-- The last alive brick, overlapping ballBottom. -/
def brickBottom : Entity :=
  { id := 2, x0 := 280, y0 := 390, x1 := 355, y1 := 410,
    kind := .brick { hits := 1, alive := true, color := "#999999" } }

/-- A surviving brick far from the ball. -/
def brickFar : Entity :=
  { id := 5, x0 := 5, y0 := 40, x1 := 80, y1 := 60,
    kind := .brick { hits := 2, alive := true, color := "#555555" } }

/-- A tick state in which the ball reaches the bottom while destroying
the last brick. -/
def gWin : GameState :=
  { lives := 3, hudLives := 3, ball := ballBottom,
    objs := [paddleE, brickBottom], message := none,
    pending := Pending.tickAfter 50 }

/-- A tick state with 0 lives left, a surviving brick, and the ball at
the bottom: the miss branch runs and ends the game. -/
def gMissOver : GameState :=
  { lives := 0, hudLives := 0, ball := ballBottom,
    objs := [paddleE, brickFar], message := none,
    pending := Pending.tickAfter 50 }

/-- A tick state with 2 lives left, a surviving brick, and the ball at
the bottom: the miss branch runs and schedules a re-serve. -/
def gMissServe : GameState :=
  { lives := 2, hudLives := 2, ball := ballBottom,
    objs := [paddleE, brickFar], message := none,
    pending := Pending.tickAfter 50 }

/-- Pointwise effect of the hit loop on one entity: a non-Brick is left
exactly as it was, a Brick becomes the result of exactly one Brick.hit,
its counter down by exactly one, without error. -/
def hitRel (o o' : Entity) : Prop :=
  (o.kind = EKind.paddle → o' = o) ∧
  (∀ st, o.kind = EKind.brick st →
    o' = { o with kind := EKind.brick (Brick.hit st).1 } ∧
    (Brick.hit st).1.hits = st.hits - 1 ∧
    (Brick.hit st).2 = false)

lemma hit_valid_no_error (st : BrickState)
    (hv : st.hits = 1 ∨ st.hits = 2 ∨ st.hits = 3) :
    (Brick.hit st).2 = false := by
  rcases hv with h | h | h <;> norm_num [Brick.hit, COLORS, h]

lemma collidingEntities_alive (g : GameState) (o : Entity)
    (ho : o ∈ collidingEntities g) : entityAlive o = true := by
  have h := List.mem_filter.mp ho
  exact (Bool.and_eq_true _ _ |>.mp h.2).1

lemma collide_one (b : Ball) (o : Entity) :
    (Ball.collide b [o]).1 =
      if (b.x0 + b.x1) * (1 / 2) > o.x1 then { b with dirX := 1 }
      else if (b.x0 + b.x1) * (1 / 2) < o.x0 then { b with dirX := -1 }
      else { b with dirY := -b.dirY } := by
  simp [Ball.collide]

lemma hit_decrements (st : BrickState) :
    (Brick.hit st).1.hits = st.hits - 1 := by
  simp only [Brick.hit]
  split
  · rfl
  · split <;> rfl

/-- Claim C1: the direction update of Ball.collide is the stated case
analysis — two or more colliding entities flip the vertical component
and keep the horizontal one; exactly one colliding entity forces the
horizontal component to 1 when the ball center is strictly right of the
entity right edge, to -1 when it is strictly left of the entity left
edge, and otherwise flips the vertical component; no colliding entity
leaves the direction alone. -/
theorem collide_direction_cases (b : Ball) (objs : List Entity) :
    (1 < objs.length →
      (Ball.collide b objs).1.dirX = b.dirX ∧
      (Ball.collide b objs).1.dirY = -b.dirY) ∧
    (∀ o, objs = [o] → o.x0 ≤ o.x1 →
      ((b.x0 + b.x1) * (1 / 2) > o.x1 →
        (Ball.collide b objs).1.dirX = 1 ∧
        (Ball.collide b objs).1.dirY = b.dirY) ∧
      ((b.x0 + b.x1) * (1 / 2) < o.x0 →
        (Ball.collide b objs).1.dirX = -1 ∧
        (Ball.collide b objs).1.dirY = b.dirY) ∧
      (o.x0 ≤ (b.x0 + b.x1) * (1 / 2) → (b.x0 + b.x1) * (1 / 2) ≤ o.x1 →
        (Ball.collide b objs).1.dirX = b.dirX ∧
        (Ball.collide b objs).1.dirY = -b.dirY)) ∧
    (objs = [] →
      (Ball.collide b objs).1.dirX = b.dirX ∧
      (Ball.collide b objs).1.dirY = b.dirY) := by
  refine ⟨?_, ?_, ?_⟩
  · intro h
    simp [Ball.collide, h]
  · intro o ho hbox
    subst ho
    refine ⟨?_, ?_, ?_⟩
    · intro hgt
      rw [collide_one, if_pos hgt]
      exact ⟨rfl, rfl⟩
    · intro hlt
      have hngt : ¬ ((b.x0 + b.x1) * (1 / 2) > o.x1) := by
        push_neg
        calc (b.x0 + b.x1) * (1 / 2) ≤ o.x0 := le_of_lt hlt
          _ ≤ o.x1 := hbox
      rw [collide_one, if_neg hngt, if_pos hlt]
      exact ⟨rfl, rfl⟩
    · intro h1 h2
      have hngt : ¬ ((b.x0 + b.x1) * (1 / 2) > o.x1) := not_lt.mpr h2
      have hnlt : ¬ ((b.x0 + b.x1) * (1 / 2) < o.x0) := not_lt.mpr h1
      rw [collide_one, if_neg hngt, if_neg hnlt]
      exact ⟨rfl, rfl⟩
  · intro h
    subst h
    simp [Ball.collide]

/-- Witness for C1 at a concrete input: two simultaneous colliding
bricks flip the vertical direction of a fresh ball and keep its
horizontal direction. -/
theorem collide_direction_cases_witness :
    (Ball.collide ballW [brickW1, brickW2]).1.dirX = ballW.dirX ∧
    (Ball.collide ballW [brickW1, brickW2]).1.dirY = -ballW.dirY :=
  (collide_direction_cases ballW [brickW1, brickW2]).1 (by decide)

/-- Claim C4 counterexample: a ball whose speed is null makes
Ball.update raise a TypeError rather than be a no-op — the error flag is
set, and here the direction was even flipped by the wall reflection
before the error. -/
theorem ball_update_null_speed_cex :
    (Ball.update gameWidth ballStuck).2 = true ∧
    (Ball.update gameWidth ballStuck).1.dirX = -1 ∧
    ballStuck.dirX = 1 := by
  decide

/-- Claim C4 amended: for every ball whose speed is null, Ball.update
raises an error (the direction-times-speed computation fails on the
null speed); the box is left unmoved, but the bounds reflection may
already have changed the direction, so the call is neither error-free
nor a guaranteed no-op. -/
theorem ball_update_null_speed_errors (w : ℚ) (b : Ball)
    (h : b.speed = none) :
    (Ball.update w b).2 = true ∧
    (Ball.update w b).1.x0 = b.x0 ∧
    (Ball.update w b).1.y0 = b.y0 ∧
    (Ball.update w b).1.x1 = b.x1 ∧
    (Ball.update w b).1.y1 = b.y1 ∧
    (Ball.update w b).1.speed = none := by
  simp [Ball.update, h]

/-- Witness for the amended C4 at a concrete input. -/
theorem ball_update_null_speed_errors_witness :
    (Ball.update gameWidth ballStuck).2 = true ∧
    (Ball.update gameWidth ballStuck).1.x0 = ballStuck.x0 ∧
    (Ball.update gameWidth ballStuck).1.y0 = ballStuck.y0 ∧
    (Ball.update gameWidth ballStuck).1.x1 = ballStuck.x1 ∧
    (Ball.update gameWidth ballStuck).1.y1 = ballStuck.y1 ∧
    (Ball.update gameWidth ballStuck).1.speed = none :=
  ball_update_null_speed_errors gameWidth ballStuck rfl

/-- Claim C5: Paddle.move(offset) is a no-op when the translated box
would leave [0, playfield width]; otherwise it translates the paddle
horizontally only, and a carried ball is translated by the same
offset. -/
theorem paddle_move_spec (w offset : ℚ) (p : Paddle) :
    (¬ (p.x0 + offset ≥ 0 ∧ p.x1 + offset ≤ w) →
      Paddle.move w offset p = p) ∧
    (p.x0 + offset ≥ 0 → p.x1 + offset ≤ w →
      (Paddle.move w offset p).x0 = p.x0 + offset ∧
      (Paddle.move w offset p).x1 = p.x1 + offset ∧
      (Paddle.move w offset p).y0 = p.y0 ∧
      (Paddle.move w offset p).y1 = p.y1 ∧
      (p.ball = none → (Paddle.move w offset p).ball = none) ∧
      (∀ b, p.ball = some b →
        (Paddle.move w offset p).ball = some (b.move offset 0))) := by
  constructor
  · intro h
    unfold Paddle.move
    rw [if_neg h]
  · intro h1 h2
    unfold Paddle.move
    rw [if_pos (And.intro h1 h2)]
    refine ⟨rfl, rfl, rfl, rfl, ?_, ?_⟩
    · intro hb
      rw [hb]
      rfl
    · intro b hb
      rw [hb]
      rfl

/-- Witness for C5 at the spec example: a paddle whose box left edge is
at 5 rejects move(-10) because the resulting left edge would be
negative. -/
theorem paddle_move_spec_witness : Paddle.move gameWidth (-10) p5 = p5 :=
  (paddle_move_spec gameWidth (-10) p5).1 (by norm_num [p5])

/-- Claim C9: Brick construction fails fast — the COLORS lookup runs
before the canvas item is created, so construction succeeds exactly for
a hits argument in 1, 2, 3 and raises a KeyError (creating nothing)
otherwise. -/
theorem brick_make_fail_fast (h : Int) :
    ((Brick.make h).isSome ↔ h = 1 ∨ h = 2 ∨ h = 3) ∧
    (Brick.make h = none ↔ ¬ (h = 1 ∨ h = 2 ∨ h = 3)) := by
  unfold Brick.make COLORS
  split_ifs with h1 h2 h3 <;> simp_all

/-- Claim C6: on a brick whose counter is in 1, 2, 3, Brick.hit
decrements the counter by one without error; a counter reaching 0
deletes the canvas item (so the brick is gone from the world, and the
colliding set of a tick only ever contains entities still on the
canvas), otherwise only the color is repainted per the counter-to-color
mapping. -/
theorem brick_hit_valid_spec (st : BrickState)
    (hv : st.hits = 1 ∨ st.hits = 2 ∨ st.hits = 3) :
    (Brick.hit st).2 = false ∧
    (Brick.hit st).1.hits = st.hits - 1 ∧
    (st.hits = 1 → (Brick.hit st).1.alive = false ∧
      (Brick.hit st).1.color = st.color) ∧
    (st.hits = 2 → (Brick.hit st).1.alive = st.alive ∧
      (Brick.hit st).1.color = "#999999") ∧
    (st.hits = 3 → (Brick.hit st).1.alive = st.alive ∧
      (Brick.hit st).1.color = "#555555") ∧
    (∀ (g : GameState) (o : Entity), o ∈ collidingEntities g →
      entityAlive o = true) := by
  refine ⟨hit_valid_no_error st hv, hit_decrements st, ?_, ?_, ?_,
    collidingEntities_alive⟩ <;>
    rcases hv with h | h | h <;> norm_num [Brick.hit, COLORS, h]

/-- Witness for C6 at a concrete input: hitting a brick on its last hit
point succeeds and deletes it. -/
theorem brick_hit_valid_spec_witness :
    (Brick.hit stW1).2 = false ∧ (Brick.hit stW1).1.hits = 0 ∧
    (Brick.hit stW1).1.alive = false := by
  have h := brick_hit_valid_spec stW1 (by decide)
  exact ⟨h.1, h.2.1.trans (by decide), (h.2.2.1 (by decide)).1⟩

/-- Claim C10 counterexample: hitting a brick whose counter is 4 does
not error — the decremented counter 3 is still a key of the color map,
although the claim says any nonzero decremented counter outside 1 and 2
raises a key error. -/
theorem brick_hit_overcount_cex :
    (Brick.hit brickFour).2 = false ∧
    (Brick.hit brickFour).1.hits = 3 ∧
    (Brick.hit brickFour).1.color = "#222222" := by
  decide

/-- Claim C10 amended: hitting a brick whose counter is already 0 is not
a safe no-op — the counter becomes -1, the brick is not removed, and the
color lookup raises a key error; in general Brick.hit errors exactly
when the decremented counter is nonzero and outside the color-map keys
1, 2, 3. -/
theorem brick_hit_out_of_range (st : BrickState) :
    (st.hits = 0 →
      (Brick.hit st).1.hits = -1 ∧
      (Brick.hit st).1.alive = st.alive ∧
      (Brick.hit st).1.color = st.color ∧
      (Brick.hit st).2 = true) ∧
    ((Brick.hit st).2 = true ↔
      st.hits - 1 ≠ 0 ∧ st.hits - 1 ≠ 1 ∧ st.hits - 1 ≠ 2 ∧
      st.hits - 1 ≠ 3) := by
  constructor
  · intro h0
    norm_num [Brick.hit, COLORS, h0]
  · simp only [Brick.hit, COLORS]
    split_ifs with h1 h2 h3 h4 <;> simp_all

/-- Witness for the amended C10 at a concrete input: a brick whose
counter is already 0 ends at -1 with the error raised. -/
theorem brick_hit_out_of_range_witness :
    (Brick.hit stZero).1.hits = -1 ∧ (Brick.hit stZero).2 = true := by
  have h := (brick_hit_out_of_range stZero).1 (by decide)
  exact ⟨h.1, h.2.2.2⟩

/-- Claim C7: Ball.collide hits every colliding Brick exactly once
(its counter goes down by exactly one) and leaves every colliding
non-Brick untouched, whatever direction branch was taken — stated for
colliding sets whose bricks carry a counter in 1, 2, 3, as every brick
still on the canvas does; the hit loop then raises no error. -/
theorem collide_hits_each_brick_once (b : Ball) (objs : List Entity)
    (hv : ∀ o ∈ objs, validKind o.kind) :
    (Ball.collide b objs).2.2 = false ∧
    List.Forall₂ hitRel objs (Ball.collide b objs).2.1 := by
  have key : ∀ l : List Entity, (∀ o ∈ l, validKind o.kind) →
      (hitAll l).2 = false ∧ List.Forall₂ hitRel l (hitAll l).1 := by
    intro l
    induction l with
    | nil => intro _; exact ⟨rfl, List.Forall₂.nil⟩
    | cons o rest ih =>
      intro hall
      have ho : validKind o.kind := hall o (List.mem_cons_self o rest)
      have hrest := ih (fun x hx => hall x (List.mem_cons_of_mem o hx))
      have hone : (hitEntity o).2 = false ∧ hitRel o (hitEntity o).1 := by
        cases hk : o.kind with
        | paddle =>
          refine ⟨by simp [hitEntity, hk], ?_, ?_⟩
          · intro _
            simp [hitEntity, hk]
          · intro st hst
            rw [hk] at hst
            cases hst
        | brick st =>
          have hv' : st.hits = 1 ∨ st.hits = 2 ∨ st.hits = 3 := by
            rw [hk] at ho
            exact ho
          have herr := hit_valid_no_error st hv'
          refine ⟨by simp [hitEntity, hk, herr], ?_, ?_⟩
          · intro hp
            rw [hk] at hp
            cases hp
          · intro st' hst'
            rw [hk] at hst'
            injection hst' with he
            subst he
            exact ⟨by simp [hitEntity, hk], hit_decrements st, herr⟩
      have hcons : hitAll (o :: rest) =
          ((hitEntity o).1 :: (hitAll rest).1, (hitAll rest).2) := by
        simp [hitAll, hone.1]
      constructor
      · rw [hcons]
        exact hrest.1
      · rw [hcons]
        exact List.Forall₂.cons hone.2 hrest.2
  exact key objs hv

/-- Witness for C7 at a concrete input: colliding with the paddle and a
valid brick raises no error and relates the input entities pointwise to
the hit output. -/
theorem collide_hits_each_brick_once_witness :
    (Ball.collide ballW [paddleE, brickW1]).2.2 = false ∧
    List.Forall₂ hitRel [paddleE, brickW1]
      (Ball.collide ballW [paddleE, brickW1]).2.1 :=
  collide_hits_each_brick_once ballW [paddleE, brickW1] (by decide)

/-- Claim C8: both direction components are always signs — true at Ball
construction, and preserved by every Ball.update and Ball.collide call
from any state satisfying it. -/
theorem ball_direction_invariant :
    (∀ x y : ℚ, dirInv (Ball.init x y)) ∧
    (∀ (w : ℚ) (b : Ball), dirInv b → dirInv (Ball.update w b).1) ∧
    (∀ (b : Ball) (objs : List Entity), dirInv b →
      dirInv (Ball.collide b objs).1) := by
  refine ⟨?_, ?_, ?_⟩
  · intro x y
    exact ⟨Or.inl rfl, Or.inr rfl⟩
  · intro w b hb
    obtain ⟨hx, hy⟩ := hb
    have h1 : (Ball.update w b).1.dirX =
        (if b.x0 ≤ 0 ∨ b.x1 ≥ w then -b.dirX else b.dirX) := by
      unfold Ball.update
      cases hsp : b.speed <;> simp [Ball.move]
    have h2 : (Ball.update w b).1.dirY =
        (if b.y0 ≤ 0 then -b.dirY else b.dirY) := by
      unfold Ball.update
      cases hsp : b.speed <;> simp [Ball.move]
    constructor
    · rw [h1]
      split_ifs <;> omega
    · rw [h2]
      split_ifs <;> omega
  · intro b objs hb
    obtain ⟨hx, hy⟩ := hb
    cases objs with
    | nil =>
      have hc : (Ball.collide b []).1 = b := by simp [Ball.collide]
      rw [hc]
      exact ⟨hx, hy⟩
    | cons o rest =>
      cases rest with
      | nil =>
        rw [collide_one b o]
        split_ifs
        · exact ⟨Or.inl rfl, hy⟩
        · exact ⟨Or.inr rfl, hy⟩
        · refine ⟨hx, ?_⟩
          show -b.dirY = 1 ∨ -b.dirY = -1
          omega
      | cons o2 rest2 =>
        have hlen : 1 < (o :: o2 :: rest2).length := by
          simp [List.length_cons]
        have hc : (Ball.collide b (o :: o2 :: rest2)).1 =
            { b with dirY := -b.dirY } := by
          simp [Ball.collide, hlen]
        rw [hc]
        refine ⟨hx, ?_⟩
        show -b.dirY = 1 ∨ -b.dirY = -1
        omega

/-- Witness for C8 at a concrete input: a freshly constructed ball keeps
the sign invariant through one update. -/
theorem ball_direction_invariant_witness :
    dirInv (Ball.update gameWidth ballW).1 :=
  ball_direction_invariant.2.1 gameWidth ballW
    (ball_direction_invariant.1 300 310)

/-- Claim C2: within a tick, collision resolution runs before the win
check, the win check before the miss check, and the miss check before
ball movement; so a tick that destroys the last brick while the ball
bottom is already at or past the playfield height takes the Won branch —
ball frozen, win message drawn, no further tick scheduled — and the
lives counter is untouched. -/
theorem game_loop_win_priority (g : GameState)
    (hbefore : numBricks g ≠ 0)
    (hnoerr : (Game.check_collisions g).2 = false)
    (hafter : numBricks (Game.check_collisions g).1 = 0)
    (hmiss : (Game.check_collisions g).1.ball.y1 ≥ gameHeight) :
    (Game.game_loop g).1.message = some Msg.won ∧
    (Game.game_loop g).1.ball.speed = none ∧
    (Game.game_loop g).1.lives = g.lives ∧
    (Game.game_loop g).1.pending = Pending.stop := by
  have hlives : (Game.check_collisions g).1.lives = g.lives := rfl
  have hstep : Game.game_loop g =
      ({ (Game.check_collisions g).1 with
          ball := { (Game.check_collisions g).1.ball with speed := none },
          message := some Msg.won, pending := Pending.stop }, false) := by
    simp only [Game.game_loop]
    simp [hnoerr, hafter]
  rw [hstep]
  exact ⟨rfl, rfl, hlives, rfl⟩

/-- Witness for C2 at a concrete input: a tick in which the ball both
reaches the bottom edge and destroys the last brick still wins, keeping
the three lives. -/
theorem game_loop_win_priority_witness :
    (Game.game_loop gWin).1.message = some Msg.won ∧
    (Game.game_loop gWin).1.ball.speed = none ∧
    (Game.game_loop gWin).1.lives = 3 ∧
    (Game.game_loop gWin).1.pending = Pending.stop := by
  have h := game_loop_win_priority gWin
    (by norm_num [numBricks, gWin, paddleE, brickBottom])
    (by norm_num [Game.check_collisions, collidingEntities, gWin, paddleE,
      brickBottom, ballBottom, overlapsBall, entityAlive, Ball.collide,
      hitAll, hitEntity, Brick.hit, COLORS, writeBack])
    (by norm_num [Game.check_collisions, collidingEntities, gWin, paddleE,
      brickBottom, ballBottom, overlapsBall, entityAlive, Ball.collide,
      hitAll, hitEntity, Brick.hit, COLORS, writeBack, numBricks])
    (by norm_num [Game.check_collisions, collidingEntities, gWin, paddleE,
      brickBottom, ballBottom, overlapsBall, entityAlive, Ball.collide,
      hitAll, hitEntity, Brick.hit, COLORS, writeBack, gameHeight])
  exact ⟨h.1, h.2.1, h.2.2.1, h.2.2.2⟩

/-- Claim C3 counterexample: on a miss tick (0 lives left, a brick still
alive, ball bottom at the playfield height) the lives counter drops to
-1 and Game Over is drawn, but the HUD is NOT updated — it still shows
the old lives value, against the update-the-HUD part of the claim. -/
theorem game_loop_miss_hud_cex :
    (Game.game_loop gMissOver).1.lives = -1 ∧
    (Game.game_loop gMissOver).1.hudLives = 0 ∧
    (Game.game_loop gMissOver).1.hudLives ≠ (Game.game_loop gMissOver).1.lives ∧
    (Game.game_loop gMissOver).1.message = some Msg.gameOver := by
  norm_num [Game.game_loop, Game.check_collisions, collidingEntities,
    gMissOver, paddleE, brickFar, ballBottom, overlapsBall, entityAlive,
    Ball.collide, hitAll, hitEntity, Brick.hit, COLORS, writeBack,
    numBricks, gameHeight]

/-- Claim C3 amended: on a tick where a brick survives the collision
step and the ball bottom is at or past the playfield height, the ball is
frozen and lives drop by one, while the HUD text is not updated during
this tick (the scheduled serve setup refreshes it later, and on Game
Over it is never refreshed); if the resulting lives are negative the
Game Over message is drawn and nothing further is scheduled, otherwise
the serve setup is scheduled after the fixed 1000 ms delay — so lives
going from 0 to -1 ends the game rather than scheduling a re-serve. -/
theorem game_loop_miss_spec (g : GameState)
    (hnoerr : (Game.check_collisions g).2 = false)
    (hbricks : numBricks (Game.check_collisions g).1 ≠ 0)
    (hmiss : (Game.check_collisions g).1.ball.y1 ≥ gameHeight) :
    (Game.game_loop g).1.ball.speed = none ∧
    (Game.game_loop g).1.lives = g.lives - 1 ∧
    (Game.game_loop g).1.hudLives = g.hudLives ∧
    (g.lives - 1 < 0 →
      (Game.game_loop g).1.message = some Msg.gameOver ∧
      (Game.game_loop g).1.pending = Pending.stop) ∧
    (0 ≤ g.lives - 1 →
      (Game.game_loop g).1.message = g.message ∧
      (Game.game_loop g).1.pending = Pending.serveAfter 1000) := by
  have hlives : (Game.check_collisions g).1.lives = g.lives := rfl
  rcases lt_or_le (g.lives - 1) 0 with hl | hl
  · have hcond : (Game.check_collisions g).1.lives - 1 < 0 := by
      rw [hlives]
      exact hl
    have hstep : Game.game_loop g =
        ({ (Game.check_collisions g).1 with
            ball := { (Game.check_collisions g).1.ball with speed := none },
            lives := (Game.check_collisions g).1.lives - 1,
            message := some Msg.gameOver, pending := Pending.stop },
          false) := by
      simp only [Game.game_loop]
      simp [hnoerr, hbricks, hmiss, hcond]
    rw [hstep]
    refine ⟨rfl, hlives ▸ rfl, rfl, fun _ => ⟨rfl, rfl⟩, fun h0 => ?_⟩
    exact absurd h0 (not_le.mpr hl)
  · have hcond : ¬ ((Game.check_collisions g).1.lives - 1 < 0) := by
      rw [hlives]
      exact not_lt.mpr hl
    have hstep : Game.game_loop g =
        ({ (Game.check_collisions g).1 with
            ball := { (Game.check_collisions g).1.ball with speed := none },
            lives := (Game.check_collisions g).1.lives - 1,
            pending := Pending.serveAfter 1000 },
          false) := by
      simp only [Game.game_loop]
      simp [hnoerr, hbricks, hmiss, hcond]
    rw [hstep]
    refine ⟨rfl, hlives ▸ rfl, rfl, fun h0 => absurd h0 (not_lt.mpr hl),
      fun _ => ⟨rfl, rfl⟩⟩

/-- Witness for the amended C3 at a concrete input: with 2 lives left, a
miss freezes the ball, drops lives to 1, leaves the HUD at 2, and
schedules the serve setup after 1000 ms. -/
theorem game_loop_miss_spec_witness :
    (Game.game_loop gMissServe).1.ball.speed = none ∧
    (Game.game_loop gMissServe).1.lives = 1 ∧
    (Game.game_loop gMissServe).1.hudLives = 2 ∧
    (Game.game_loop gMissServe).1.pending = Pending.serveAfter 1000 := by
  have h := game_loop_miss_spec gMissServe
    (by norm_num [Game.check_collisions, collidingEntities, gMissServe,
      paddleE, brickFar, ballBottom, overlapsBall, entityAlive,
      Ball.collide, hitAll, hitEntity, Brick.hit, COLORS, writeBack])
    (by norm_num [Game.check_collisions, collidingEntities, gMissServe,
      paddleE, brickFar, ballBottom, overlapsBall, entityAlive,
      Ball.collide, hitAll, hitEntity, Brick.hit, COLORS, writeBack,
      numBricks])
    (by norm_num [Game.check_collisions, collidingEntities, gMissServe,
      paddleE, brickFar, ballBottom, overlapsBall, entityAlive,
      Ball.collide, hitAll, hitEntity, Brick.hit, COLORS, writeBack,
      gameHeight])
  refine ⟨h.1, h.2.1.trans (by norm_num [gMissServe]),
    h.2.2.1.trans (by norm_num [gMissServe]),
    (h.2.2.2.2 (by norm_num [gMissServe])).2⟩

end Breakout
